import Mathlib

/-!
Shallow embedding of the openterface KVM client's display-and-input engine
(`src/gui_wayland.cpp`, `src/gui_input.cpp`, `src/gui_video.cpp`, `src/gui.cpp`,
`src/serial.cpp`), together with theorems settling the specification claims.

Machine integers (`int32_t`, `int`) are modelled as `Int`; all quantities
involved stay far below 2^31 so no overflow wrapping is needed.  `uint8_t`
bytes are modelled as `Nat` with explicit `% 256` where the code truncates.
C `double` arithmetic is modelled by exact rational arithmetic `ℚ`; every
theorem below only evaluates the rational pipeline at points where the IEEE
double computation is exact (quotients 0/d and d/d), so the model agrees
with the code there.
-/

namespace Openterface

/-! ## Resize negotiation (`xdg_toplevel_configure`, gui_wayland.cpp:39-88)

The callback receives a proposed `width`/`height` from the compositor and
either applies it (updating `*current_width`, `*current_height`, setting
`*needs_resize`, and recording the time in the function-local `static
last_update`) or leaves everything unchanged.  `std::chrono` timestamps are
modelled as whole milliseconds (`Nat`); `time_point{}` (the epoch) is `0`.
-/

/-- The state the configure callback reads and writes: the window's current
dimensions (`*callback_data->current_width/height`), the pending-resize flag
(`*callback_data->needs_resize`) and the `static last_update` timestamp. -/
structure ConfigState where
  width : Int
  height : Int
  needsResize : Bool
  lastUpdate : Nat
  deriving DecidableEq, Repr

/-- A resize proposal delivered by the windowing server, with the
`steady_clock::now()` value observed when handling it (in ms). -/
structure Proposal where
  time : Nat
  w : Int
  h : Int
  deriving DecidableEq, Repr

/-- Model of `xdg_toplevel_configure` (gui_wayland.cpp:39-88): validate dimensions
(`width > 0 && height > 0 && width <= 4096 && height <= 4096`), check the
proposal differs from the current size, rate-limit
(`time_since_last.count() > 16`), then apply.  `now - last_update` uses `Nat`
subtraction: a clock that did not advance yields 0, which fails `> 16`
exactly as the non-positive C++ duration does. -/
def xdg_toplevel_configure (s : ConfigState) (p : Proposal) : ConfigState :=
  if 0 < p.w && 0 < p.h && p.w ≤ 4096 && p.h ≤ 4096 then
    if s.width ≠ p.w || s.height ≠ p.h then
      if p.time - s.lastUpdate > 16 then
        { width := p.w, height := p.h, needsResize := true, lastUpdate := p.time }
      else s
    else s
  else s

/-- Whether a proposal takes the "apply" branch of the callback. -/
def appliesProposal (s : ConfigState) (p : Proposal) : Bool :=
  (0 < p.w && 0 < p.h && p.w ≤ 4096 && p.h ≤ 4096)
    && (s.width ≠ p.w || s.height ≠ p.h)
    && (p.time - s.lastUpdate > 16)

/-- Run the configure callback over a sequence of proposals. -/
def runConfigure (s : ConfigState) : List Proposal → ConfigState
  | [] => s
  | p :: ps => runConfigure (xdg_toplevel_configure s p) ps

/-- The times (in arrival order) at which proposals were actually applied. -/
def appliedTimes (s : ConfigState) : List Proposal → List Nat
  | [] => []
  | p :: ps =>
    if appliesProposal s p then
      p.time :: appliedTimes (xdg_toplevel_configure s p) ps
    else
      appliedTimes (xdg_toplevel_configure s p) ps

lemma xdg_toplevel_configure_eq (s : ConfigState) (p : Proposal) :
    xdg_toplevel_configure s p =
      if appliesProposal s p then
        { width := p.w, height := p.h, needsResize := true, lastUpdate := p.time }
      else s := by
  unfold xdg_toplevel_configure appliesProposal
  cases h1 : (decide (0 < p.w) && decide (0 < p.h) && decide (p.w ≤ 4096) && decide (p.h ≤ 4096)) with
  | false => simp [h1]
  | true =>
    cases h2 : (decide (s.width ≠ p.w) || decide (s.height ≠ p.h)) with
    | false => simp [h1, h2]
    | true =>
      by_cases h3 : 16 < p.time - s.lastUpdate
      · simp [h1, h2, h3]
      · simp [h1, h2, h3]

lemma appliesProposal_time (s : ConfigState) (p : Proposal)
    (h : appliesProposal s p = true) : s.lastUpdate + 16 < p.time := by
  unfold appliesProposal at h
  simp only [Bool.and_eq_true, decide_eq_true_eq] at h
  omega

/-- If every proposal in the list arrives no later than 16ms after the
state's `lastUpdate`, none is applied. -/
lemma appliedTimes_nil_of_soon (s : ConfigState) (ps : List Proposal)
    (h : ∀ p ∈ ps, p.time ≤ s.lastUpdate + 16) :
    appliedTimes s ps = [] := by
  induction ps with
  | nil => rfl
  | cons p ps ih =>
    have hp : p.time ≤ s.lastUpdate + 16 := h p (by simp)
    have hap : appliesProposal s p = false := by
      cases hb : appliesProposal s p with
      | false => rfl
      | true => exact absurd (appliesProposal_time s p hb) (by omega)
    have hstep : xdg_toplevel_configure s p = s := by
      rw [xdg_toplevel_configure_eq, hap]; simp
    rw [appliedTimes, hap, hstep]
    · simp only [Bool.false_eq_true, if_false]
      exact ih (fun q hq => h q (by simp [hq]))

/-- Proposals arriving inside a single 10ms window trigger at most one
application: the first applied proposal stamps `lastUpdate` inside the
window, after which every remaining proposal is at most 10ms (≤ 16ms)
later. -/
lemma appliedTimes_length_le_one (s : ConfigState) (t : Nat) (ps : List Proposal)
    (h : ∀ p ∈ ps, t ≤ p.time ∧ p.time ≤ t + 10) :
    (appliedTimes s ps).length ≤ 1 := by
  induction ps generalizing s with
  | nil => simp [appliedTimes]
  | cons p ps ih =>
    rw [appliedTimes]
    by_cases hap : appliesProposal s p = true
    · rw [if_pos hap]
      have ht := h p (by simp)
      have hlast : (xdg_toplevel_configure s p).lastUpdate = p.time := by
        rw [xdg_toplevel_configure_eq, if_pos hap]
      have hnil : appliedTimes (xdg_toplevel_configure s p) ps = [] := by
        apply appliedTimes_nil_of_soon
        intro q hq
        have hq' := h q (by simp [hq])
        omega
      simp [hnil]
    · rw [if_neg hap]
      exact ih (xdg_toplevel_configure s p) (fun q hq => h q (by simp [hq]))

/-- Every applied time is more than 16ms after the state's `lastUpdate`, and
any two applied times are more than 16ms apart. -/
lemma appliedTimes_separated (s : ConfigState) (ps : List Proposal) :
    (∀ x ∈ appliedTimes s ps, s.lastUpdate + 16 < x) ∧
      (appliedTimes s ps).Pairwise (fun a b => a + 16 < b) := by
  induction ps generalizing s with
  | nil => simp [appliedTimes]
  | cons p ps ih =>
    rw [appliedTimes]
    by_cases hap : appliesProposal s p = true
    · rw [if_pos hap]
      have h1 : s.lastUpdate + 16 < p.time := appliesProposal_time s p hap
      have hlast : (xdg_toplevel_configure s p).lastUpdate = p.time := by
        rw [xdg_toplevel_configure_eq, if_pos hap]
      obtain ⟨ihall, ihpw⟩ := ih (xdg_toplevel_configure s p)
      constructor
      · intro x hx
        rcases List.mem_cons.mp hx with rfl | hx'
        · exact h1
        · have := ihall x hx'; omega
      · refine List.pairwise_cons.mpr ⟨?_, ihpw⟩
        intro b hb
        have := ihall b hb; omega
    · rw [if_neg hap]
      have hlast : (xdg_toplevel_configure s p).lastUpdate = s.lastUpdate := by
        rw [xdg_toplevel_configure_eq, if_neg hap]
      obtain ⟨ihall, ihpw⟩ := ih (xdg_toplevel_configure s p)
      exact ⟨fun x hx => by have := ihall x hx; omega, ihpw⟩

/-- C1 (amended: the upper bound in the code is 4096, not 8192).
A resize proposal is rejected — window size unchanged and the pending flag
not set — whenever `w ≤ 0`, `h ≤ 0`, `w > 4096` or `h > 4096`; every
proposal within those bounds that differs from the current size and passes
the 16ms rate limit is applied (size stored, pending flag set). -/
theorem C1_resize_validation (s : ConfigState) (p : Proposal) :
    ((p.w ≤ 0 ∨ p.h ≤ 0 ∨ 4096 < p.w ∨ 4096 < p.h) →
       xdg_toplevel_configure s p = s) ∧
    ((0 < p.w ∧ 0 < p.h ∧ p.w ≤ 4096 ∧ p.h ≤ 4096) →
       (s.width ≠ p.w ∨ s.height ≠ p.h) →
       s.lastUpdate + 16 < p.time →
       xdg_toplevel_configure s p =
         { width := p.w, height := p.h, needsResize := true, lastUpdate := p.time }) := by
  constructor
  · intro hout
    rw [xdg_toplevel_configure_eq]
    have hfalse : appliesProposal s p = false := by
      unfold appliesProposal
      rcases hout with h | h | h | h
      · have : ¬ (0 < p.w) := by omega
        simp [this]
      · have : ¬ (0 < p.h) := by omega
        simp [this]
      · have : ¬ (p.w ≤ 4096) := by omega
        simp [this]
      · have : ¬ (p.h ≤ 4096) := by omega
        simp [this]
    simp [hfalse]
  · intro hin hdiff hrate
    rw [xdg_toplevel_configure_eq]
    have hrate' : 16 < p.time - s.lastUpdate := by omega
    have htrue : appliesProposal s p = true := by
      unfold appliesProposal
      obtain ⟨w1, h1, w2, h2⟩ := hin
      rcases hdiff with hd | hd <;> simp [w1, h1, w2, h2, hd, hrate']
    simp [htrue]

/-- C1 counterexample: the proposal 5000×5000 is within the claim's
8192 bound, differs from the current 800×600 size, and passes the rate
limit (no prior update), yet the code rejects it: the pending flag stays
clear and the stored size does not change. -/
theorem C1_counterexample :
    ¬ ((xdg_toplevel_configure ⟨800, 600, false, 0⟩ ⟨1000, 5000, 5000⟩).needsResize = true ∧
       (xdg_toplevel_configure ⟨800, 600, false, 0⟩ ⟨1000, 5000, 5000⟩).width = 5000) := by
  decide

/-- Witness for `C1_resize_validation`: a 9000-wide proposal is rejected;
a 1024×768 proposal arriving 1000ms after the last update is applied. -/
theorem C1_witness :
    xdg_toplevel_configure ⟨800, 600, false, 0⟩ ⟨1000, 9000, 100⟩ = ⟨800, 600, false, 0⟩ ∧
    xdg_toplevel_configure ⟨800, 600, false, 0⟩ ⟨1000, 1024, 768⟩ = ⟨1024, 768, true, 1000⟩ :=
  ⟨(C1_resize_validation _ _).1 (by decide),
   (C1_resize_validation _ _).2 (by decide) (by decide) (by decide)⟩

/-- C8: in any burst of 100 resize proposals that all arrive within a
10ms interval (each differing from the current window size), at most one is
applied, and any two applied resizes are separated by more than 16ms. -/
theorem C8_burst_rate_limit (s : ConfigState) (t : Nat) (ps : List Proposal)
    (hlen : ps.length = 100)
    (hwin : ∀ p ∈ ps, t ≤ p.time ∧ p.time ≤ t + 10)
    (hdiff : ∀ p ∈ ps, p.w ≠ s.width ∨ p.h ≠ s.height) :
    (appliedTimes s ps).length ≤ 1 ∧
      (appliedTimes s ps).Pairwise (fun a b => a + 16 < b) :=
  ⟨appliedTimes_length_le_one s t ps hwin, (appliedTimes_separated s ps).2⟩

/-- Witness for `C8_burst_rate_limit`: one hundred identical 640×480
proposals at t = 100ms against an 800×600 window whose last update was at
time 0. -/
theorem C8_witness :
    (appliedTimes ⟨800, 600, false, 0⟩ (List.replicate 100 ⟨100, 640, 480⟩)).length ≤ 1 ∧
      (appliedTimes ⟨800, 600, false, 0⟩
        (List.replicate 100 ⟨100, 640, 480⟩)).Pairwise (fun a b => a + 16 < b) :=
  C8_burst_rate_limit ⟨800, 600, false, 0⟩ 100 (List.replicate 100 ⟨100, 640, 480⟩)
    (by decide) (by decide) (by decide)

/-! ## Input forwarding (`gui_input.cpp`)

The Linux-scancode → USB-HID table, coordinate normalization, resize-edge
detection, and the pointer/keyboard listener callbacks.  Wayland
`wl_fixed_t` positions are modelled after `wl_fixed_to_int` conversion
(plain `Int`).  `WL_KEYBOARD_KEY_STATE_PRESSED` /
`WL_POINTER_BUTTON_STATE_PRESSED` are modelled as a `Bool` `pressed`. -/

/-- The fixed Linux-scancode → USB-HID lookup table
(`linux_to_hid_keymap`, gui_input.cpp:14-138), entry for entry. -/
def linux_to_hid_keymap : List (Nat × Nat) :=
  [ -- Function keys
    (1, 0x29), (59, 0x3A), (60, 0x3B), (61, 0x3C), (62, 0x3D), (63, 0x3E),
    (64, 0x3F), (65, 0x40), (66, 0x41), (67, 0x42), (68, 0x43), (87, 0x44),
    (88, 0x45),
    -- Numbers row
    (41, 0x35), (2, 0x1E), (3, 0x1F), (4, 0x20), (5, 0x21), (6, 0x22),
    (7, 0x23), (8, 0x24), (9, 0x25), (10, 0x26), (11, 0x27), (12, 0x2D),
    (13, 0x2E), (14, 0x2A),
    -- QWERTY row
    (15, 0x2B), (16, 0x14), (17, 0x1A), (18, 0x08), (19, 0x15), (20, 0x17),
    (21, 0x1C), (22, 0x18), (23, 0x0C), (24, 0x12), (25, 0x13), (26, 0x2F),
    (27, 0x30), (28, 0x28),
    -- ASDF row
    (58, 0x39), (30, 0x04), (31, 0x16), (32, 0x07), (33, 0x09), (34, 0x0A),
    (35, 0x0B), (36, 0x0D), (37, 0x0E), (38, 0x0F), (39, 0x33), (40, 0x34),
    (43, 0x32),
    -- ZXCV row
    (42, 0xE1), (44, 0x1D), (45, 0x1B), (46, 0x06), (47, 0x19), (48, 0x05),
    (49, 0x11), (50, 0x10), (51, 0x36), (52, 0x37), (53, 0x38), (54, 0xE5),
    -- Bottom row
    (29, 0xE0), (125, 0xE3), (56, 0xE2), (57, 0x2C), (100, 0xE6),
    (126, 0xE7), (127, 0x65), (97, 0xE4),
    -- Arrow keys
    (103, 0x52), (108, 0x51), (105, 0x50), (106, 0x4F),
    -- Editing keys
    (110, 0x49), (111, 0x4C), (102, 0x4A), (107, 0x4D), (104, 0x4B),
    (109, 0x4E),
    -- Numeric keypad
    (69, 0x53), (98, 0x54), (55, 0x55), (74, 0x56), (78, 0x57), (96, 0x58),
    (79, 0x59), (80, 0x5A), (81, 0x5B), (75, 0x5C), (76, 0x5D), (77, 0x5E),
    (71, 0x5F), (72, 0x60), (73, 0x61), (82, 0x62), (83, 0x63),
    -- Print Screen, Scroll Lock, Pause
    (99, 0x46), (70, 0x47), (119, 0x48) ]

/-- Model of `linux_keycode_to_hid` (gui_input.cpp:141-149): table lookup, `0` for
unmapped keys. -/
def linux_keycode_to_hid (linux_keycode : Nat) : Nat :=
  (linux_to_hid_keymap.lookup linux_keycode).getD 0

/-- Model of `isMouseOverVideo` (gui_input.cpp:159-169): with full-window video the
mouse is over the video exactly when it is inside the window bounds (or
when no video dimensions are known). -/
def isMouseOverVideo (mouse_x mouse_y window_width window_height
    video_width video_height : Int) : Bool :=
  if video_width ≤ 0 || video_height ≤ 0 then
    true
  else
    0 ≤ mouse_x && mouse_x < window_width && 0 ≤ mouse_y && mouse_y < window_height

/-- Model of `normalizeMouseCoordinates` (gui_input.cpp:171-191).  The C code clamps
to window bounds, scales through `double` arithmetic
(`clamped / (window_width - 1) * 4095`) with a truncating
`static_cast<int>`, and clamps the result to 0..4095.  Doubles are modelled
as exact rationals; the cast is modelled as `Int.floor`, which agrees with
truncation-toward-zero because the clamped operand is nonnegative whenever
the divisor is positive (and the theorems below only evaluate the quotient
where the double computation is exact: `0 / d` and `d / d`).
`video_width`/`video_height` are accepted and ignored, as in the source. -/
def normalizeMouseCoordinates (window_x window_y window_width window_height
    video_width video_height : Int) : Int × Int :=
  let clamped_x := max 0 (min window_x (window_width - 1))
  let clamped_y := max 0 (min window_y (window_height - 1))
  let ch9329_x : Int := ⌊((clamped_x : ℚ) / ((window_width - 1 : Int) : ℚ)) * 4095⌋
  let ch9329_y : Int := ⌊((clamped_y : ℚ) / ((window_height - 1 : Int) : ℚ)) * 4095⌋
  (max 0 (min ch9329_x 4095), max 0 (min ch9329_y 4095))

/-- Model of `get_resize_edge` (gui_input.cpp:194-207).  The four `edge |= …` bit
sets touch distinct bits, so they are written as a sum. -/
def get_resize_edge (x y width height border_size : Int) : Int :=
  (if x < border_size then 1 else 0)
    + (if x > width - border_size then 2 else 0)
    + (if y < border_size then 4 else 0)
    + (if y > height - border_size then 8 else 0)

/-- The serial-forward calls the input callbacks can make on the Input /
Serial collaborators (`sendKeyPress`, `sendKeyRelease`, `sendMouseButton`,
`injectMouseScroll`). -/
inductive ForwardCall where
  | keyPress (code : Nat) (modifiers : Nat)
  | keyRelease (code : Nat) (modifiers : Nat)
  | mouseButton (button : Nat) (pressed : Bool) (x y : Int)
  | scroll (dx dy : Int)
  deriving DecidableEq, Repr

/-- Is the call a key forward (`sendKeyPress`/`sendKeyRelease`)? -/
def ForwardCall.isKeyForward : ForwardCall → Bool
  | .keyPress _ _ => true
  | .keyRelease _ _ => true
  | _ => false

/-- Is the call a button forward (`sendMouseButton`)? -/
def ForwardCall.isButtonForward : ForwardCall → Bool
  | .mouseButton _ _ _ _ => true
  | _ => false

/-- The mutable fields of `WaylandCallbackData` the input callbacks touch,
plus the collaborator conditions they query.  Nullable `int*` fields
(`current_width`, …, `video_width_ptr`, …) are `Option Int`; the
`input_ptr`/`serial_ptr` double indirections and the
`xdg_toplevel`/`seat` pointers collapse to presence booleans. -/
structure WaylandCallbackData where
  mouse_over : Bool := false
  input_active : Bool := false
  is_resizing : Bool := false
  resize_edge : Int := 0
  resize_serial : Nat := 0
  last_mouse_x : Int := 0
  last_mouse_y : Int := 0
  current_modifiers : Nat := 0
  current_width : Option Int := none
  current_height : Option Int := none
  video_width_ptr : Option Int := none
  video_height_ptr : Option Int := none
  has_input : Bool := false          -- input_ptr && *input_ptr
  has_serial : Bool := false         -- serial_ptr && *serial_ptr
  forwarding_enabled : Bool := false -- input->isForwardingEnabled()
  serial_connected : Bool := false   -- serial->isConnected()
  has_xdg_toplevel : Bool := false
  has_seat : Bool := false
  deriving DecidableEq, Repr

/-- Model of `WaylandCallbackData::RESIZE_BORDER` (gui_wayland.hpp:72). -/
def RESIZE_BORDER : Int := 10

/-- Model of `debug_pointer_enter` (gui_input.cpp:277-295): activate hover and
record the entry position (cursor setup has no modelled effect). -/
def debug_pointer_enter (s : WaylandCallbackData) (sx sy : Int) : WaylandCallbackData :=
  { s with mouse_over := true, last_mouse_x := sx, last_mouse_y := sy }

/-- Model of `debug_pointer_leave` (gui_input.cpp:297-313): clear hover (the
`stopMouseTracking` call on the Input collaborator makes no serial-forward
call). -/
def debug_pointer_leave (s : WaylandCallbackData) : WaylandCallbackData :=
  { s with mouse_over := false }

/-- Model of `debug_pointer_motion` (gui_input.cpp:315-391): guarded by hover+focus;
stores the position; during a resize returns early; otherwise recomputes
the resize edge when window dimensions are known.  (The source only
assigns `resize_edge` when the value changed; assigning the freshly
computed value unconditionally is the same state.) -/
def debug_pointer_motion (s : WaylandCallbackData) (x y : Int) : WaylandCallbackData :=
  if !s.mouse_over || !s.input_active then s
  else
    let s := { s with last_mouse_x := x, last_mouse_y := y }
    if s.is_resizing then s
    else
      match s.current_width, s.current_height with
      | some w, some h => { s with resize_edge := get_resize_edge x y w h RESIZE_BORDER }
      | _, _ => s

/-- Model of `debug_pointer_button` (gui_input.cpp:393-559): guarded by hover+focus;
left-button presses on a nonzero resize edge start an interactive resize
(consuming the click), releases end it; otherwise, when not resizing and
the Input/Serial collaborators are available, forwarding is enabled and the
serial is connected, known buttons are normalized and forwarded as
absolute `sendMouseButton` calls.  The `xdg_toplevel_resize` request to the
compositor is not a serial forward and is not recorded. -/
def debug_pointer_button (s : WaylandCallbackData) (button : Nat) (pressed : Bool)
    (serial : Nat) : WaylandCallbackData × List ForwardCall :=
  if !s.mouse_over || !s.input_active then (s, [])
  else
    let s :=
      if button = 0x110 then
        if pressed then
          if s.resize_edge ≠ 0 && s.has_xdg_toplevel && s.has_seat then
            { s with is_resizing := true, resize_serial := serial }
          else s
        else
          if s.is_resizing then { s with is_resizing := false } else s
      else s
    if !s.is_resizing && s.has_input && s.has_serial then
      if s.forwarding_enabled && s.serial_connected then
        let button_num : Nat :=
          if button = 0x110 then 1 else if button = 0x111 then 2
          else if button = 0x112 then 3 else 0
        if button_num > 0 then
          let window_width := s.current_width.getD 1920
          let window_height := s.current_height.getD 1080
          let vw := s.video_width_ptr.getD 0
          let vh := s.video_height_ptr.getD 0
          let video_width := if vw ≤ 0 || vh ≤ 0 then window_width else vw
          let video_height := if vw ≤ 0 || vh ≤ 0 then window_height else vh
          if !isMouseOverVideo s.last_mouse_x s.last_mouse_y window_width window_height
              video_width video_height then (s, [])
          else
            let normalized := normalizeMouseCoordinates s.last_mouse_x s.last_mouse_y
              window_width window_height video_width video_height
            (s, [.mouseButton button_num pressed normalized.1 normalized.2])
        else (s, [])
      else (s, [])
    else (s, [])

/-- Model of `debug_pointer_axis` (gui_input.cpp:561-613): guarded by hover+focus;
vertical scroll deltas are quantized to ±1 and forwarded through
`injectMouseScroll(0, steps)`.  `value` is the raw `wl_fixed_t`; only its
sign is consulted. -/
def debug_pointer_axis (s : WaylandCallbackData) (vertical : Bool) (value : Int) :
    WaylandCallbackData × List ForwardCall :=
  if !s.mouse_over || !s.input_active then (s, [])
  else if s.has_input && s.has_serial then
    if s.forwarding_enabled && s.serial_connected then
      if vertical then
        let scroll_steps : Int := if value > 0 then 1 else if value < 0 then -1 else 0
        if scroll_steps ≠ 0 then (s, [.scroll 0 scroll_steps]) else (s, [])
      else (s, [])
    else (s, [])
  else (s, [])

/-- Model of `debug_keyboard_enter` (gui_input.cpp:660-667): keyboard focus gained. -/
def debug_keyboard_enter (s : WaylandCallbackData) : WaylandCallbackData :=
  { s with input_active := true }

/-- Model of `debug_keyboard_leave` (gui_input.cpp:669-682): keyboard focus lost
(`stopMouseTracking` makes no serial-forward call). -/
def debug_keyboard_leave (s : WaylandCallbackData) : WaylandCallbackData :=
  { s with input_active := false }

/-- The Wayland → CH9329 modifier conversion inside `debug_keyboard_key`
(gui_input.cpp:731-736).  The `modifiers |= …` sets touch distinct bits,
so they are written as a sum. -/
def convert_modifiers (current_modifiers : Nat) : Nat :=
  (if current_modifiers &&& 1 ≠ 0 then 0x02 else 0)
    + (if current_modifiers &&& 4 ≠ 0 then 0x01 else 0)
    + (if current_modifiers &&& 8 ≠ 0 then 0x04 else 0)
    + (if current_modifiers &&& 64 ≠ 0 then 0x08 else 0)

/-- Model of `debug_keyboard_key` (gui_input.cpp:684-761): guarded by keyboard
focus and collaborator availability; translates the scancode, drops
unmapped keys (`hid == 0`), drops modifier keycodes `0xE0`..`0xE7`, and
otherwise forwards the key with the converted current modifier state. -/
def debug_keyboard_key (s : WaylandCallbackData) (key : Nat) (pressed : Bool) :
    WaylandCallbackData × List ForwardCall :=
  if s.input_active && s.has_input && s.has_serial then
    if s.forwarding_enabled && s.serial_connected then
      let hid_keycode := linux_keycode_to_hid key
      if hid_keycode = 0 then (s, [])
      else if 0xE0 ≤ hid_keycode && hid_keycode ≤ 0xE7 then (s, [])
      else
        let modifiers := convert_modifiers s.current_modifiers
        if pressed then (s, [.keyPress hid_keycode modifiers])
        else (s, [.keyRelease hid_keycode modifiers])
    else (s, [])
  else (s, [])

/-- Model of `debug_keyboard_modifiers` (gui_input.cpp:763-777): record the
depressed modifier set for later key events. -/
def debug_keyboard_modifiers (s : WaylandCallbackData) (mods_depressed : Nat) :
    WaylandCallbackData :=
  { s with current_modifiers := mods_depressed }

/-- A pointer/keyboard event delivered by the windowing server. -/
inductive WEvent where
  | pointerEnter (sx sy : Int)
  | pointerLeave
  | pointerMotion (x y : Int)
  | pointerButton (button : Nat) (pressed : Bool) (serial : Nat)
  | pointerAxis (vertical : Bool) (value : Int)
  | keyboardEnter
  | keyboardLeave
  | keyboardKey (key : Nat) (pressed : Bool)
  | keyboardModifiers (mods : Nat)
  deriving DecidableEq, Repr

/-- Dispatch one event to its listener callback. -/
def handleEvent (s : WaylandCallbackData) : WEvent → WaylandCallbackData × List ForwardCall
  | .pointerEnter sx sy => (debug_pointer_enter s sx sy, [])
  | .pointerLeave => (debug_pointer_leave s, [])
  | .pointerMotion x y => (debug_pointer_motion s x y, [])
  | .pointerButton b p serial => debug_pointer_button s b p serial
  | .pointerAxis v value => debug_pointer_axis s v value
  | .keyboardEnter => (debug_keyboard_enter s, [])
  | .keyboardLeave => (debug_keyboard_leave s, [])
  | .keyboardKey k p => debug_keyboard_key s k p
  | .keyboardModifiers m => (debug_keyboard_modifiers s m, [])

/-- Process a sequence of events, collecting all serial-forward calls. -/
def runEvents (s : WaylandCallbackData) : List WEvent → WaylandCallbackData × List ForwardCall
  | [] => (s, [])
  | e :: es =>
    let r := handleEvent s e
    let rest := runEvents r.1 es
    (rest.1, r.2 ++ rest.2)

/-- Is the event a pointer-enter? -/
def WEvent.isPointerEnter : WEvent → Bool
  | .pointerEnter _ _ => true
  | _ => false

/-- Is the event a keyboard-enter (focus gain)? -/
def WEvent.isKeyboardEnter : WEvent → Bool
  | .keyboardEnter => true
  | _ => false

/-- While keyboard focus is inactive, any event other than a focus gain
leaves focus inactive and produces no key or button forward. -/
lemma handleEvent_inactive (s : WaylandCallbackData) (e : WEvent)
    (h : s.input_active = false) (hne : e.isKeyboardEnter = false) :
    (handleEvent s e).1.input_active = false ∧
      ∀ c ∈ (handleEvent s e).2, c.isKeyForward = false ∧ c.isButtonForward = false := by
  cases e with
  | pointerEnter sx sy => simp [handleEvent, debug_pointer_enter, h]
  | pointerLeave => simp [handleEvent, debug_pointer_leave, h]
  | pointerMotion x y =>
    refine ⟨?_, by simp [handleEvent]⟩
    simp only [handleEvent, debug_pointer_motion, h]
    split
    · exact h
    · split
      · simp
      · split <;> simp
  | pointerButton b p serial => simp [handleEvent, debug_pointer_button, h]
  | pointerAxis v value => simp [handleEvent, debug_pointer_axis, h]
  | keyboardEnter => simp [WEvent.isKeyboardEnter] at hne
  | keyboardLeave => simp [handleEvent, debug_keyboard_leave]
  | keyboardKey k p => simp [handleEvent, debug_keyboard_key, h]
  | keyboardModifiers m => simp [handleEvent, debug_keyboard_modifiers, h]

/-- While hover is inactive, any event other than a pointer-enter leaves
hover inactive and produces no button forward. -/
lemma handleEvent_not_over (s : WaylandCallbackData) (e : WEvent)
    (h : s.mouse_over = false) (hne : e.isPointerEnter = false) :
    (handleEvent s e).1.mouse_over = false ∧
      ∀ c ∈ (handleEvent s e).2, c.isButtonForward = false := by
  cases e with
  | pointerEnter sx sy => simp [WEvent.isPointerEnter] at hne
  | pointerLeave => simp [handleEvent, debug_pointer_leave]
  | pointerMotion x y =>
    refine ⟨?_, by simp [handleEvent]⟩
    simp only [handleEvent, debug_pointer_motion, h]
    split
    · exact h
    · split
      · simp
      · split <;> simp
  | pointerButton b p serial => simp [handleEvent, debug_pointer_button, h]
  | pointerAxis v value => simp [handleEvent, debug_pointer_axis, h]
  | keyboardEnter => simp [handleEvent, debug_keyboard_enter, h]
  | keyboardLeave => simp [handleEvent, debug_keyboard_leave, h]
  | keyboardKey k p =>
    refine ⟨?_, ?_⟩
    · simp only [handleEvent, debug_keyboard_key]
      split
      · split
        · split
          · exact h
          · split
            · exact h
            · split <;> exact h
        · exact h
      · exact h
    · simp only [handleEvent, debug_keyboard_key]
      split
      · split
        · split
          · simp
          · split
            · simp
            · split <;> simp [ForwardCall.isButtonForward]
        · simp
      · simp
  | keyboardModifiers m => simp [handleEvent, debug_keyboard_modifiers, h]

/-- Focus stays lost and no key/button forward happens over a whole trace
without a focus-gain event. -/
lemma runEvents_inactive (s : WaylandCallbackData) (evs : List WEvent)
    (h : s.input_active = false) (hne : ∀ e ∈ evs, e.isKeyboardEnter = false) :
    ∀ c ∈ (runEvents s evs).2, c.isKeyForward = false ∧ c.isButtonForward = false := by
  induction evs generalizing s with
  | nil => simp [runEvents]
  | cons e es ih =>
    obtain ⟨h1, h2⟩ := handleEvent_inactive s e h (hne e (by simp))
    intro c hc
    simp only [runEvents, List.mem_append] at hc
    rcases hc with hc | hc
    · exact h2 c hc
    · exact ih (handleEvent s e).1 h1 (fun e' he' => hne e' (by simp [he'])) c hc

/-- Hover stays lost and no button forward happens over a whole trace
without a pointer-enter event. -/
lemma runEvents_not_over (s : WaylandCallbackData) (evs : List WEvent)
    (h : s.mouse_over = false) (hne : ∀ e ∈ evs, e.isPointerEnter = false) :
    ∀ c ∈ (runEvents s evs).2, c.isButtonForward = false := by
  induction evs generalizing s with
  | nil => simp [runEvents]
  | cons e es ih =>
    obtain ⟨h1, h2⟩ := handleEvent_not_over s e h (hne e (by simp))
    intro c hc
    simp only [runEvents, List.mem_append] at hc
    rcases hc with hc | hc
    · exact h2 c hc
    · exact ih (handleEvent s e).1 h1 (fun e' he' => hne e' (by simp [he'])) c hc

/-- C2: after a keyboard-focus-lost event, no key forward and no button
forward occurs for any subsequent events until focus is regained (a
keyboard-enter event); after a pointer-leave event, no button forward
occurs until hover is regained (a pointer-enter event). -/
theorem C2_focus_loss_safety (s : WaylandCallbackData) (evs : List WEvent) :
    ((∀ e ∈ evs, e.isKeyboardEnter = false) →
      ((runEvents (debug_keyboard_leave s) evs).2.all
        (fun c => !c.isKeyForward && !c.isButtonForward)) = true) ∧
    ((∀ e ∈ evs, e.isPointerEnter = false) →
      ((runEvents (debug_pointer_leave s) evs).2.all
        (fun c => !c.isButtonForward)) = true) := by
  constructor
  · intro hne
    rw [List.all_eq_true]
    intro c hc
    obtain ⟨h1, h2⟩ := runEvents_inactive (debug_keyboard_leave s) evs rfl hne c hc
    simp [h1, h2]
  · intro hne
    rw [List.all_eq_true]
    intro c hc
    have h1 := runEvents_not_over (debug_pointer_leave s) evs rfl hne c hc
    simp [h1]

/-- A callback-data state with hover, focus and all forwarding
prerequisites enabled, used by the concrete witnesses. -/
def demoState : WaylandCallbackData :=
  { mouse_over := true, input_active := true, current_modifiers := 5,
    current_width := some 800, current_height := some 600,
    video_width_ptr := some 1280, video_height_ptr := some 720,
    has_input := true, has_serial := true,
    forwarding_enabled := true, serial_connected := true,
    has_xdg_toplevel := true, has_seat := true }

/-- Witness for `C2_focus_loss_safety`: a key press and a button click
arriving right after the loss events are not forwarded. -/
theorem C2_witness :
    ((runEvents (debug_keyboard_leave demoState)
        [WEvent.keyboardKey 30 true, WEvent.pointerButton 0x110 true 7]).2.all
      (fun c => !c.isKeyForward && !c.isButtonForward)) = true ∧
    ((runEvents (debug_pointer_leave demoState)
        [WEvent.pointerButton 0x110 true 7, WEvent.keyboardKey 30 true]).2.all
      (fun c => !c.isButtonForward)) = true :=
  ⟨(C2_focus_loss_safety demoState _).1 (by decide),
   (C2_focus_loss_safety demoState _).2 (by decide)⟩

/-- C3 (amended: the window must be at least 2×2; for a 1×1 window the
two corner pixels coincide, so the claimed mapping is contradictory).  For
every window width and height of at least 2, `normalizeMouseCoordinates`
maps the corner pixel (0,0) to (0,0) and the corner pixel
(width-1, height-1) to (4095,4095). -/
theorem C3_corner_mapping (w h vw vh : Int) (hw : 2 ≤ w) (hh : 2 ≤ h) :
    normalizeMouseCoordinates 0 0 w h vw vh = (0, 0) ∧
      normalizeMouseCoordinates (w - 1) (h - 1) w h vw vh = (4095, 4095) := by
  have hwq : ((w - 1 : Int) : ℚ) ≠ 0 := by
    exact_mod_cast (by omega : (w - 1 : Int) ≠ 0)
  have hhq : ((h - 1 : Int) : ℚ) ≠ 0 := by
    exact_mod_cast (by omega : (h - 1 : Int) ≠ 0)
  constructor
  · simp only [normalizeMouseCoordinates]
    have cx : max (0 : Int) (min 0 (w - 1)) = 0 := by omega
    have cy : max (0 : Int) (min 0 (h - 1)) = 0 := by omega
    rw [cx, cy]
    norm_num
  · simp only [normalizeMouseCoordinates]
    have cx : max (0 : Int) (min (w - 1) (w - 1)) = w - 1 := by omega
    have cy : max (0 : Int) (min (h - 1) (h - 1)) = h - 1 := by omega
    rw [cx, cy, div_self hwq, div_self hhq]
    norm_num

/-- C3 counterexample: at the positive window size 1×1 the corner
pixels (0,0) and (width-1, height-1) coincide, and the claim demands that
the same input map both to (0,0) and to (4095,4095) — impossible for the
function computed by the code. -/
theorem C3_counterexample :
    ¬ (normalizeMouseCoordinates 0 0 1 1 1920 1080 = (0, 0) ∧
       normalizeMouseCoordinates (1 - 1) (1 - 1) 1 1 1920 1080 = (4095, 4095)) := by
  intro hclaim
  have h12 := hclaim.1.symm.trans hclaim.2
  simp [Prod.ext_iff] at h12

/-- Witness for `C3_corner_mapping`: an 800×600 window. -/
theorem C3_witness :
    normalizeMouseCoordinates 0 0 800 600 1920 1080 = (0, 0) ∧
      normalizeMouseCoordinates (800 - 1) (600 - 1) 800 600 1920 1080 = (4095, 4095) :=
  C3_corner_mapping 800 600 1920 1080 (by decide) (by decide)

/-- C9: for every input position, including positions outside the
window, and every window at least 2×2, the normalized pair lies within
[0,4095] on both axes. -/
theorem C9_normalized_range (x y w h vw vh : Int) (hw : 2 ≤ w) (hh : 2 ≤ h) :
    0 ≤ (normalizeMouseCoordinates x y w h vw vh).1 ∧
      (normalizeMouseCoordinates x y w h vw vh).1 ≤ 4095 ∧
      0 ≤ (normalizeMouseCoordinates x y w h vw vh).2 ∧
      (normalizeMouseCoordinates x y w h vw vh).2 ≤ 4095 := by
  unfold normalizeMouseCoordinates
  exact ⟨le_max_left _ _, max_le (by norm_num) (min_le_right _ _),
    le_max_left _ _, max_le (by norm_num) (min_le_right _ _)⟩

/-- Witness for `C9_normalized_range`: a far-outside position on an
800×600 window. -/
theorem C9_witness :
    0 ≤ (normalizeMouseCoordinates (-100000) 99999 800 600 0 0).1 ∧
      (normalizeMouseCoordinates (-100000) 99999 800 600 0 0).1 ≤ 4095 ∧
      0 ≤ (normalizeMouseCoordinates (-100000) 99999 800 600 0 0).2 ∧
      (normalizeMouseCoordinates (-100000) 99999 800 600 0 0).2 ≤ 4095 :=
  C9_normalized_range (-100000) 99999 800 600 0 0 (by decide) (by decide)

/-- C7: a key event arriving while keyboard focus is active and the
forwarding collaborators are available is (a) dropped with no serial call
when the scancode has no table entry, (b) dropped when it translates to a
modifier keycode `0xE0`..`0xE7`, and (c) otherwise forwarded with the
converted modifier state recorded by the modifiers callback merged into the
key event's modifier byte. -/
theorem C7_key_translation (s : WaylandCallbackData) (key : Nat) (pressed : Bool)
    (hfocus : s.input_active = true)
    (hin : s.has_input = true) (hser : s.has_serial = true)
    (hfwd : s.forwarding_enabled = true) (hconn : s.serial_connected = true) :
    (linux_keycode_to_hid key = 0 → debug_keyboard_key s key pressed = (s, [])) ∧
    (0xE0 ≤ linux_keycode_to_hid key → linux_keycode_to_hid key ≤ 0xE7 →
      debug_keyboard_key s key pressed = (s, [])) ∧
    (linux_keycode_to_hid key ≠ 0 →
      ¬ (0xE0 ≤ linux_keycode_to_hid key ∧ linux_keycode_to_hid key ≤ 0xE7) →
      debug_keyboard_key s key pressed =
        (s, [if pressed then
              ForwardCall.keyPress (linux_keycode_to_hid key)
                (convert_modifiers s.current_modifiers)
             else
              ForwardCall.keyRelease (linux_keycode_to_hid key)
                (convert_modifiers s.current_modifiers)])) ∧
    (∀ m, (debug_keyboard_modifiers s m).current_modifiers = m) := by
  refine ⟨?_, ?_, ?_, fun m => rfl⟩
  · intro h0
    simp [debug_keyboard_key, hfocus, hin, hser, hfwd, hconn, h0]
  · intro hlo hhi
    have h0 : linux_keycode_to_hid key ≠ 0 := by omega
    simp [debug_keyboard_key, hfocus, hin, hser, hfwd, hconn, h0, hlo, hhi]
  · intro h0 hmod
    simp only [debug_keyboard_key, hfocus, hin, hser, hfwd, hconn, Bool.and_self,
      if_true, if_pos, Bool.true_and]
    rw [if_neg h0]
    have : (decide (0xE0 ≤ linux_keycode_to_hid key)
        && decide (linux_keycode_to_hid key ≤ 0xE7)) = false := by
      rcases Nat.lt_or_ge (linux_keycode_to_hid key) 0xE0 with hlt | hge
      · simp [Nat.not_le.mpr hlt]
      · have : ¬ linux_keycode_to_hid key ≤ 0xE7 := fun hle => hmod ⟨hge, hle⟩
        simp [this]
    rw [if_neg (by simp [this] : ¬ (0xE0 ≤ linux_keycode_to_hid key
      && linux_keycode_to_hid key ≤ 0xE7) = true)]
    cases pressed <;> simp

/-- Witness for `C7_key_translation`: scancode 200 is unmapped and
dropped; scancode 29 (Left Ctrl) maps to modifier 0xE0 and is dropped;
scancode 30 ("A", HID 0x04) pressed with Shift+Ctrl depressed (Wayland
mask 5) is forwarded as HID 4 with CH9329 modifier byte 3. -/
theorem C7_witness :
    debug_keyboard_key demoState 200 true = (demoState, []) ∧
    debug_keyboard_key demoState 29 true = (demoState, []) ∧
    debug_keyboard_key demoState 30 true = (demoState, [ForwardCall.keyPress 4 3]) := by
  refine ⟨(C7_key_translation demoState 200 true rfl rfl rfl rfl rfl).1 (by decide),
    (C7_key_translation demoState 29 true rfl rfl rfl rfl rfl).2.1 (by decide) (by decide),
    ?_⟩
  have h := (C7_key_translation demoState 30 true rfl rfl rfl rfl rfl).2.2.1
    (by decide) (by decide)
  simpa using h

/-! ## Video frame processing (`gui_video.cpp`)

`FrameData` (video.hpp:20-26) carries a possibly-null byte pointer and a
separate size field; `VideoFrame` (gui_video.hpp:15-20) is the decoded
output slot; `DecodedFrame` (jpeg_decoder.hpp:9-14) is the decoder
collaborator's result.  The JPEG decoder is an external collaborator
(libjpeg-backed), so `processFrame` is parameterized by the decode
function and its last-error string. -/

/-- Model of `FrameData` (video.hpp:20-26): `data` is `none` for a null pointer. -/
structure FrameData where
  data : Option (List Nat)
  size : Nat
  width : Int
  height : Int
  timestamp : Nat
  deriving DecidableEq, Repr

/-- Model of `VideoFrame` (gui_video.hpp:15-20). -/
structure VideoFrame where
  data : List Nat
  width : Int := 0
  height : Int := 0
  is_rgb : Bool := false
  deriving DecidableEq, Repr

/-- Model of `DecodedFrame` (jpeg_decoder.hpp:9-14). -/
structure DecodedFrame where
  rgb_data : List Nat
  width : Int
  height : Int
  channels : Int
  deriving DecidableEq, Repr

/-- Model of `VideoProcessor::processFrame` (gui_video.cpp:13-39).  Returns the C++
`bool` result, the new contents of the `output` out-parameter, and the new
`last_error` (`none` when the call leaves `last_error` untouched).
`decode bytes size` is the decoder collaborator
(`jpeg_decoder->decode(frame.data, frame.size, decoded_frame)`),
`decoder_error` its `getLastError()`. -/
def processFrame (decode : List Nat → Nat → Option DecodedFrame) (decoder_error : String)
    (frame : FrameData) (output : VideoFrame) : Bool × VideoFrame × Option String :=
  -- Clear previous frame data first
  let output := { output with data := [], width := 0, height := 0, is_rgb := false }
  match frame.data with
  | none => (false, output, some "Invalid frame data")
  | some bytes =>
    if frame.size = 0 then
      (false, output, some "Invalid frame data")
    else
      match decode bytes frame.size with
      | some decoded_frame =>
        (true,
         { output with data := decoded_frame.rgb_data, width := decoded_frame.width,
                       height := decoded_frame.height, is_rgb := true },
         none)
      | none =>
        (false, output, some ("MJPEG decode failed: " ++ decoder_error))

/-- C5: `processFrame` clears the output frame before attempting
decode — the result never depends on the previous output contents — and on
a null input, an empty input, or a decode failure it returns `false`,
leaves the output in the cleared invalid state, and records a non-empty
error string. -/
theorem C5_process_frame (decode : List Nat → Nat → Option DecodedFrame)
    (decoder_error : String) (frame : FrameData) (output : VideoFrame) :
    ((frame.data = none ∨ frame.size = 0 ∨
        (∀ bytes, frame.data = some bytes → decode bytes frame.size = none)) →
      (processFrame decode decoder_error frame output).1 = false ∧
      (processFrame decode decoder_error frame output).2.1 =
        { data := [], width := 0, height := 0, is_rgb := false } ∧
      ∃ e, (processFrame decode decoder_error frame output).2.2 = some e ∧
        0 < e.length) ∧
    (∀ output' : VideoFrame,
      processFrame decode decoder_error frame output =
        processFrame decode decoder_error frame output') := by
  constructor
  · intro hfail
    match hdata : frame.data with
    | none =>
      refine ⟨?_, ?_, "Invalid frame data", ?_, by decide⟩ <;> simp [processFrame, hdata]
    | some bytes =>
      by_cases hsz : frame.size = 0
      · refine ⟨?_, ?_, "Invalid frame data", ?_, by decide⟩ <;>
          simp [processFrame, hdata, hsz]
      · have hdec : decode bytes frame.size = none := by
          rcases hfail with h | h | h
          · rw [hdata] at h; cases h
          · exact absurd h hsz
          · exact h bytes hdata
        refine ⟨?_, ?_, "MJPEG decode failed: " ++ decoder_error, ?_, ?_⟩
        · simp [processFrame, hdata, hsz, hdec]
        · simp [processFrame, hdata, hsz, hdec]
        · simp [processFrame, hdata, hsz, hdec]
        · rw [String.length_append]
          have : ("MJPEG decode failed: ").length = 21 := by decide
          omega
  · intro output'
    simp only [processFrame]

/-- Witness for `C5_process_frame`: a 3-byte frame the decoder rejects. -/
theorem C5_witness :
    (processFrame (fun _ _ => none) "bad SOI" ⟨some [1, 2, 3], 3, 640, 480, 0⟩
        ⟨[9, 9], 7, 7, true⟩).1 = false ∧
    (processFrame (fun _ _ => none) "bad SOI" ⟨some [1, 2, 3], 3, 640, 480, 0⟩
        ⟨[9, 9], 7, 7, true⟩).2.1 =
      { data := [], width := 0, height := 0, is_rgb := false } ∧
    ∃ e, (processFrame (fun _ _ => none) "bad SOI" ⟨some [1, 2, 3], 3, 640, 480, 0⟩
        ⟨[9, 9], 7, 7, true⟩).2.2 = some e ∧ 0 < e.length :=
  (C5_process_frame (fun _ _ => none) "bad SOI" ⟨some [1, 2, 3], 3, 640, 480, 0⟩
    ⟨[9, 9], 7, 7, true⟩).1 (Or.inr (Or.inr (fun _ _ => rfl)))

/-! ## Serial HID commands (`serial.cpp`)

Transmission is modelled as the byte list handed to `write()`: `none` when
not connected (nothing is sent), `some bytes` otherwise. -/

/-- Model of `Serial::Impl::calculateChecksum` (serial.cpp:34-40): byte sum reduced
to `uint8_t`.  (At most 13 bytes each < 256, so the `uint32_t` accumulator
cannot wrap.) -/
def calculateChecksum (data : List Nat) : Nat :=
  data.sum % 256

/-- Model of `Serial::Impl::sendDataRaw` (serial.cpp:51-83): refuses when not
connected, otherwise writes the bytes to the port. -/
def sendDataRaw (connected : Bool) (data : List Nat) : Option (List Nat) :=
  if !connected then none else some data

/-- Model of `Serial::Impl::sendCommandWithChecksum` (serial.cpp:43-48): append the
checksum byte, then send. -/
def sendCommandWithChecksum (connected : Bool) (cmd_base : List Nat) : Option (List Nat) :=
  sendDataRaw connected (cmd_base ++ [calculateChecksum cmd_base])

/-- Model of `Serial::sendData` (serial.cpp:512-515): all commands go through
`sendCommandWithChecksum`. -/
def sendData (connected : Bool) (data : List Nat) : Option (List Nat) :=
  sendCommandWithChecksum connected data

/-- Model of `Serial::sendKeyRelease` (serial.cpp:566-575): an all-zero keyboard
report, ignoring both arguments. -/
def sendKeyRelease (connected : Bool) (key_code modifiers : Int) : Option (List Nat) :=
  if !connected then none
  else
    sendData connected
      [0x57, 0xAB, 0x00, 0x02, 0x08, 0x00, 0x00, 0x00, 0x00, 0x00, 0x00, 0x00, 0x00]

/-- C10: while connected, `sendKeyRelease` transmits the fixed
all-zero keyboard report — header `57 AB 00 02 08`, eight zero bytes, and
checksum `0x0C` — for every `key_code` and `modifiers` argument, so the
release packet is independent of its arguments and releases all keys. -/
theorem C10_key_release_fixed (key_code modifiers key_code' modifiers' : Int) :
    sendKeyRelease true key_code modifiers =
      some [0x57, 0xAB, 0x00, 0x02, 0x08, 0x00, 0x00, 0x00, 0x00, 0x00, 0x00, 0x00, 0x00,
            0x0C] ∧
    sendKeyRelease true key_code modifiers = sendKeyRelease true key_code' modifiers' :=
  ⟨rfl, rfl⟩

/-! ## Shared-memory buffer lifecycle (`GUI::Impl::createBuffer` /
`GUI::Impl::destroyBuffer`, gui.cpp:1265-1420)

The `Impl` fields the two functions touch are modelled in `BufState`; the
memfd's file size (`ftruncate`/`fstat`) is tracked in `file_size`, the
extent handed to `mmap` in `mapped_size`.  Syscall outcomes that depend on
the OS are oracle booleans in `SysEnv` (`fstat` on a valid descriptor the
process owns reports the file's size, so it is modelled as succeeding
whenever `shm_fd != -1`).  `destroyBuffer` additionally returns its
teardown actions in execution order. -/

/-- Oracle outcomes of the fallible syscalls in `createBuffer`. -/
structure SysEnv where
  memfd_ok : Bool
  ftruncate_ok : Bool
  mmap_ok : Bool
  pool_ok : Bool
  create_buffer_ok : Bool
  deriving DecidableEq, Repr

/-- The buffer-related fields of `GUI::Impl`. -/
structure BufState where
  buffer : Bool := false      -- wl_buffer* non-null
  shm_data : Bool := false    -- mapped pointer, non-null and != MAP_FAILED
  shm_fd : Int := -1
  file_size : Int := 0        -- st_size of the memfd
  mapped_size : Int := 0      -- extent actually passed to mmap
  window_width : Int := 0     -- info.window_width
  window_height : Int := 0    -- info.window_height
  deriving DecidableEq, Repr

/-- The externally visible teardown steps of `destroyBuffer`. -/
inductive DestroyAction where
  | destroy_wl_buffer
  | munmap (size : Int)
  | close_fd
  deriving DecidableEq, Repr

/-- Model of `GUI::Impl::destroyBuffer` (gui.cpp:1379-1420): destroy the Wayland
buffer first, then unmap the shared memory using the backing file's size
reported by `fstat` (falling back to the window's current logical
`width*height*4` only when the descriptor is gone), then close the file
descriptor; each step is skipped when its resource is absent. -/
def destroyBuffer (s : BufState) : BufState × List DestroyAction :=
  -- Destroy Wayland buffer first
  let step1 : BufState × List DestroyAction :=
    if s.buffer then ({ s with buffer := false }, [DestroyAction.destroy_wl_buffer])
    else (s, [])
  let s1 := step1.1
  -- Unmap shared memory using the original size from when it was mapped
  let step2 : BufState × List DestroyAction :=
    if s1.shm_data then
      if s1.shm_fd ≠ -1 then
        ({ s1 with shm_data := false }, [DestroyAction.munmap s1.file_size])
      else
        -- Fallback: unmap with current calculated size (less safe)
        let buffer_size := s1.window_width * s1.window_height * 4
        ({ s1 with shm_data := false },
          if 0 < buffer_size then [DestroyAction.munmap buffer_size] else [])
    else (s1, [])
  let s2 := step2.1
  -- Close file descriptor
  let step3 : BufState × List DestroyAction :=
    if s2.shm_fd ≠ -1 then ({ s2 with shm_fd := -1 }, [DestroyAction.close_fd])
    else (s2, [])
  (step3.1, step1.2 ++ step2.2 ++ step3.2)

/-- Model of `GUI::Impl::createBuffer` (gui.cpp:1265-1377): validate dimensions,
create and size the memfd, map `stride * height` bytes, create the
`wl_shm` pool and buffer (destroying everything so far on a pool/buffer
failure).  `create_memfd`'s returned descriptor is modelled as 3.  The
frame/gradient fill of the new pixels does not affect these fields and is
not modelled. -/
def createBuffer (env : SysEnv) (s : BufState) (width height : Int) : Bool × BufState :=
  if width ≤ 0 ∨ height ≤ 0 then (false, s)
  else if 8192 < width ∨ 8192 < height then (false, s)
  else
    let stride := width * 4
    let size := stride * height
    if !env.memfd_ok then (false, s)
    else
      let s := { s with shm_fd := 3 }
      if !env.ftruncate_ok then (false, { s with shm_fd := -1 })
      else
        let s := { s with file_size := size }
        if !env.mmap_ok then (false, { s with shm_fd := -1 })
        else
          let s := { s with shm_data := true, mapped_size := size }
          if !env.pool_ok then (false, (destroyBuffer s).1)
          else if !env.create_buffer_ok then (false, (destroyBuffer s).1)
          else (true, { s with buffer := true })

/-- C4: after a successful `createBuffer w h`, even if the window's
logical size has changed since, `destroyBuffer` performs exactly the
strict sequence destroy-wl-buffer, munmap, close-fd, and the munmap size
is the creation-time `w*h*4` — the size actually mapped — not the current
logical size; moreover each teardown step is skipped when its resource is
absent. -/
theorem C4_destroy_order_and_size :
    (∀ (env : SysEnv) (s : BufState) (width height width' height' : Int) (r : BufState),
      createBuffer env s width height = (true, r) →
      (destroyBuffer { r with window_width := width', window_height := height' }).2 =
          [DestroyAction.destroy_wl_buffer, DestroyAction.munmap (width * height * 4),
           DestroyAction.close_fd] ∧
        r.mapped_size = width * height * 4 ∧ r.file_size = r.mapped_size) ∧
    (∀ s : BufState,
      (s.buffer = false → DestroyAction.destroy_wl_buffer ∉ (destroyBuffer s).2) ∧
      (s.shm_data = false → ∀ n, DestroyAction.munmap n ∉ (destroyBuffer s).2) ∧
      (s.shm_fd = -1 → DestroyAction.close_fd ∉ (destroyBuffer s).2)) := by
  constructor
  · intro env s width height width' height' r hcr
    have hsz : width * 4 * height = width * height * 4 := by ring
    simp only [createBuffer] at hcr
    split_ifs at hcr
    all_goals rw [Prod.mk.injEq] at hcr
    all_goals try exact absurd hcr.1 Bool.false_ne_true
    obtain ⟨-, rfl⟩ := hcr
    refine ⟨?_, by simp [hsz], by simp⟩
    simp [destroyBuffer, hsz]
  · intro s
    refine ⟨?_, ?_, ?_⟩
    · intro hb
      simp only [destroyBuffer, hb, Bool.false_eq_true, if_false]
      split_ifs <;> simp_all
    · intro hd n
      simp only [destroyBuffer, hd, Bool.false_eq_true, if_false]
      split_ifs <;> simp_all
    · intro hfd
      simp only [destroyBuffer, hfd]
      split_ifs <;> simp_all

/-- Witness for `C4_destroy_order_and_size`: create a 640×480 buffer
(file size 1228800), shrink the logical window to 1×1, and destroy. -/
theorem C4_witness :
    (destroyBuffer ⟨true, true, 3, 1228800, 1228800, 1, 1⟩).2 =
      [DestroyAction.destroy_wl_buffer, DestroyAction.munmap (640 * 480 * 4),
       DestroyAction.close_fd] :=
  ((C4_destroy_order_and_size.1 ⟨true, true, true, true, true⟩
      ⟨false, false, -1, 0, 0, 0, 0⟩ 640 480 1 1
      ⟨true, true, 3, 1228800, 1228800, 0, 0⟩
      (by decide)).1)

/-! ## CPU compositor (`renderVideoToBuffer`, gui_video.cpp:41-122)

The destination pixel buffer is modelled as a function `Nat → Nat` from
flat pixel index (`dst_y * buffer_width + x`) to 32-bit pixel value; the
`for` loops become structural recursion on the loop counter (iteration `n`
of the recursion is iteration `n` of the loop, so writes happen in the
same order).  Loop-internal dimensions are the `Int` dimensions converted
to `Nat` after the positivity guards. -/

/-- The pixel pack `(0xFF << 24) | (red << 16) | (green << 8) | blue`
(gui_video.cpp:81,116). -/
def packPixel (red green blue : Nat) : Nat :=
  (0xFF <<< 24) ||| (red <<< 16) ||| (green <<< 8) ||| blue

/-- Byte `i` of the frame's RGB data (`rgb_data[i]`). -/
def frameByte (frame : VideoFrame) (i : Nat) : Nat :=
  frame.data.getD i 0

/-- Model of `memset(pixels, 0, buffer_width * buffer_height * 4)`
(gui_video.cpp:58-59), in whole 32-bit pixels. -/
def memsetZero (buf : Nat → Nat) (count : Nat) : Nat → Nat :=
  fun i => if i < count then 0 else buf i

/-- The inner `for (x = 0; x < scaled_width; x++)` row loop of the scaling
path (gui_video.cpp:107-118), including the `src_x_map[x]` table value
`(x * frame.width) / scaled_width` (gui_video.cpp:89-92) and the
`src_x < frame.width` guard. -/
def renderRowLoop (frame : VideoFrame) (scaled_width src_row_base dst_row_base : Nat)
    (buf : Nat → Nat) : Nat → (Nat → Nat)
  | 0 => buf
  | x + 1 =>
    let buf' := renderRowLoop frame scaled_width src_row_base dst_row_base buf x
    let src_x := (x * frame.width.toNat) / scaled_width
    if src_x < frame.width.toNat then
      Function.update buf' (dst_row_base + x)
        (packPixel (frameByte frame (src_row_base + src_x * 3))
          (frameByte frame (src_row_base + src_x * 3 + 1))
          (frameByte frame (src_row_base + src_x * 3 + 2)))
    else buf'

/-- The outer `for (y = 0; y < scaled_height; y++)` loop of the scaling
path (gui_video.cpp:94-119) with `offset_x = offset_y = 0`,
`scaled_width = buffer_width`, `scaled_height = buffer_height`
(gui_video.cpp:66-69): the `dst_y` range guard, the
`src_y = (y * frame.height) / scaled_height` computation and its guard,
then the row loop. -/
def renderScaledLoop (frame : VideoFrame) (bw bh : Nat) (buf : Nat → Nat) :
    Nat → (Nat → Nat)
  | 0 => buf
  | y + 1 =>
    let buf' := renderScaledLoop frame bw bh buf y
    if y < bh then
      let src_y := (y * frame.height.toNat) / bh
      if src_y < frame.height.toNat then
        renderRowLoop frame bw (src_y * frame.width.toNat * 3) (y * bw) buf' bw
      else buf'
    else buf'

/-- The inner row copy of the 1:1 fast path (gui_video.cpp:75-83). -/
def fastCopyRowLoop (frame : VideoFrame) (src_row_base dst_row_base : Nat)
    (buf : Nat → Nat) : Nat → (Nat → Nat)
  | 0 => buf
  | x + 1 =>
    let buf' := fastCopyRowLoop frame src_row_base dst_row_base buf x
    Function.update buf' (dst_row_base + x)
      (packPixel (frameByte frame (src_row_base + x * 3))
        (frameByte frame (src_row_base + x * 3 + 1))
        (frameByte frame (src_row_base + x * 3 + 2)))

/-- The outer row loop of the 1:1 fast path (gui_video.cpp:75-83). -/
def fastCopyLoop (frame : VideoFrame) (bw : Nat) (buf : Nat → Nat) : Nat → (Nat → Nat)
  | 0 => buf
  | y + 1 =>
    fastCopyRowLoop frame (y * frame.width.toNat * 3) (y * bw)
      (fastCopyLoop frame bw buf y) frame.width.toNat

/-- Model of `renderVideoToBuffer` (gui_video.cpp:41-122).  The null-`buffer` early
return has no counterpart (the buffer is a total function here); the other
guards are verbatim.  The fast-path test combines
`scale_x, scale_y ∈ [0.99, 1.01]` with exact dimension equality; when the
dimensions are equal both ratios are exactly 1.0, so the conjunction is
equivalent to the dimension equality used here. -/
def renderVideoToBuffer (buf : Nat → Nat) (buffer_width buffer_height : Int)
    (frame : VideoFrame) : Nat → Nat :=
  if buffer_width ≤ 0 ∨ buffer_height ≤ 0 ∨ frame.is_rgb = false ∨ frame.data = []
      ∨ frame.width ≤ 0 ∨ frame.height ≤ 0 then buf
  else if frame.data.length ≠ (frame.width * frame.height * 3).toNat then buf
  else
    let bw := buffer_width.toNat
    let bh := buffer_height.toNat
    let pixels := memsetZero buf (bw * bh)
    if frame.width = buffer_width ∧ frame.height = buffer_height then
      fastCopyLoop frame bw pixels bh
    else
      renderScaledLoop frame bw bh pixels bh

/-- The nearest-neighbour source byte index for destination pixel (x, y):
`src_y * frame.width * 3 + src_x * 3` with
`src_x = (x * frame.width) / buffer_width` and
`src_y = (y * frame.height) / buffer_height`. -/
def scaledSourceIndex (frame : VideoFrame) (buffer_width buffer_height : Int)
    (x y : Nat) : Nat :=
  ((y * frame.height.toNat) / buffer_height.toNat) * frame.width.toNat * 3
    + ((x * frame.width.toNat) / buffer_width.toNat) * 3

lemma or_as_add_lo (i a b : Nat) (h : b < 2 ^ i) : 2 ^ i * a ||| b = 2 ^ i * a + b :=
  (Nat.mul_add_lt_is_or h a).symm

/-- For byte-sized fields the bitwise pack is plain positional addition. -/
lemma packPixel_eq (r g b : Nat) (hr : r < 256) (hg : g < 256) (hb : b < 256) :
    packPixel r g b = 0xFF000000 + r * 65536 + g * 256 + b := by
  unfold packPixel
  rw [Nat.shiftLeft_eq, Nat.shiftLeft_eq, Nat.shiftLeft_eq]
  have s1 : (0xFF * 2 ^ 24 : Nat) ||| r * 2 ^ 16 = 2 ^ 24 * 0xFF + r * 2 ^ 16 := by
    rw [show (0xFF * 2 ^ 24 : Nat) = 2 ^ 24 * 0xFF by ring]
    exact or_as_add_lo 24 0xFF (r * 2 ^ 16) (by omega)
  have s2 : (2 ^ 24 * 0xFF + r * 2 ^ 16 : Nat) ||| g * 2 ^ 8
      = 2 ^ 24 * 0xFF + r * 2 ^ 16 + g * 2 ^ 8 := by
    rw [show (2 ^ 24 * 0xFF + r * 2 ^ 16 : Nat) = 2 ^ 16 * (2 ^ 8 * 0xFF + r) by ring]
    rw [or_as_add_lo 16 (2 ^ 8 * 0xFF + r) (g * 2 ^ 8) (by omega)]
  have s3 : (2 ^ 24 * 0xFF + r * 2 ^ 16 + g * 2 ^ 8 : Nat) ||| b
      = 2 ^ 24 * 0xFF + r * 2 ^ 16 + g * 2 ^ 8 + b := by
    rw [show (2 ^ 24 * 0xFF + r * 2 ^ 16 + g * 2 ^ 8 : Nat)
        = 2 ^ 8 * (2 ^ 16 * 0xFF + r * 2 ^ 8 + g) by ring]
    rw [or_as_add_lo 8 (2 ^ 16 * 0xFF + r * 2 ^ 8 + g) b (by omega)]
  rw [s1, s2, s3]
  norm_num

/-- Every frame byte is byte-sized when the data is. -/
lemma frameByte_lt (frame : VideoFrame) (hbytes : ∀ c ∈ frame.data, c < 256) (i : Nat) :
    frameByte frame i < 256 := by
  unfold frameByte
  rcases h : frame.data.get? i with _ | v
  · rw [List.getD_eq_getD_get?, h]
    norm_num
  · rw [List.getD_eq_getD_get?, h]
    exact hbytes v (List.get?_mem h)

lemma renderRowLoop_untouched (frame : VideoFrame) (sw srb drb : Nat) (buf : Nat → Nat)
    (n i : Nat) (h : i < drb ∨ drb + n ≤ i) :
    renderRowLoop frame sw srb drb buf n i = buf i := by
  induction n with
  | zero => rfl
  | succ n ih =>
    simp only [renderRowLoop]
    split
    · rw [Function.update_noteq (by omega)]
      exact ih (by omega)
    · exact ih (by omega)

lemma renderRowLoop_get (frame : VideoFrame) (sw srb drb : Nat) (buf : Nat → Nat)
    (n x : Nat) (hx : x < n) :
    renderRowLoop frame sw srb drb buf n (drb + x) =
      if (x * frame.width.toNat) / sw < frame.width.toNat then
        packPixel
          (frameByte frame (srb + ((x * frame.width.toNat) / sw) * 3))
          (frameByte frame (srb + ((x * frame.width.toNat) / sw) * 3 + 1))
          (frameByte frame (srb + ((x * frame.width.toNat) / sw) * 3 + 2))
      else buf (drb + x) := by
  induction n with
  | zero => omega
  | succ n ih =>
    rcases Nat.lt_succ_iff_lt_or_eq.mp hx with hlt | rfl
    · simp only [renderRowLoop]
      split
      · rw [Function.update_noteq (by omega)]
        exact ih hlt
      · exact ih hlt
    · simp only [renderRowLoop]
      split
      · rw [Function.update_same]
      · exact renderRowLoop_untouched frame sw srb drb buf x (drb + x)
          (Or.inr (le_refl _))

lemma renderScaledLoop_untouched (frame : VideoFrame) (bw bh : Nat) (buf : Nat → Nat)
    (n i : Nat) (h : n * bw ≤ i) :
    renderScaledLoop frame bw bh buf n i = buf i := by
  induction n with
  | zero => rfl
  | succ n ih =>
    have hstep : n * bw ≤ i := by
      calc n * bw ≤ (n + 1) * bw := by
            exact Nat.mul_le_mul_right bw (by omega)
        _ ≤ i := h
    simp only [renderScaledLoop]
    split
    · split
      · rw [renderRowLoop_untouched frame bw _ (n * bw) _ bw i
          (Or.inr (by calc n * bw + bw = (n + 1) * bw := by ring
                     _ ≤ i := h))]
        exact ih hstep
      · exact ih hstep
    · exact ih hstep

lemma renderScaledLoop_get (frame : VideoFrame) (bw bh : Nat) (buf : Nat → Nat)
    (n x y : Nat) (hy : y < n) (hn : n ≤ bh) (hx : x < bw)
    (hfw : 0 < frame.width.toNat) (hfh : 0 < frame.height.toNat) (hbw : 0 < bw)
    (hbh : 0 < bh) :
    renderScaledLoop frame bw bh buf n (y * bw + x) =
      packPixel
        (frameByte frame (((y * frame.height.toNat) / bh) * frame.width.toNat * 3
          + ((x * frame.width.toNat) / bw) * 3))
        (frameByte frame (((y * frame.height.toNat) / bh) * frame.width.toNat * 3
          + ((x * frame.width.toNat) / bw) * 3 + 1))
        (frameByte frame (((y * frame.height.toNat) / bh) * frame.width.toNat * 3
          + ((x * frame.width.toNat) / bw) * 3 + 2)) := by
  induction n with
  | zero => omega
  | succ n ih =>
    rcases Nat.lt_succ_iff_lt_or_eq.mp hy with hlt | rfl
    · have hidx : y * bw + x < n * bw := by
        calc y * bw + x < y * bw + bw := by omega
          _ = (y + 1) * bw := by ring
          _ ≤ n * bw := Nat.mul_le_mul_right bw (by omega)
      simp only [renderScaledLoop]
      split
      · split
        · rw [renderRowLoop_untouched frame bw _ (n * bw) _ bw (y * bw + x)
            (Or.inl hidx)]
          exact ih hlt (by omega)
        · exact ih hlt (by omega)
      · exact ih hlt (by omega)
    · have hyb : y < bh := by omega
      have hsy : (y * frame.height.toNat) / bh < frame.height.toNat := by
        rw [Nat.div_lt_iff_lt_mul hbh]
        calc y * frame.height.toNat < bh * frame.height.toNat := by
              exact Nat.mul_lt_mul_of_lt_of_le hyb (le_refl _) hfh
          _ = frame.height.toNat * bh := by ring
      have hsx : (x * frame.width.toNat) / bw < frame.width.toNat := by
        rw [Nat.div_lt_iff_lt_mul hbw]
        calc x * frame.width.toNat < bw * frame.width.toNat := by
              exact Nat.mul_lt_mul_of_lt_of_le hx (le_refl _) hfw
          _ = frame.width.toNat * bw := by ring
      simp only [renderScaledLoop]
      rw [if_pos hyb, if_pos hsy]
      rw [renderRowLoop_get frame bw _ (y * bw) _ bw x hx, if_pos hsx]

/-- C6: for a valid byte-sized RGB frame and a destination buffer of
different dimensions, `renderVideoToBuffer` writes every destination pixel
(offsets are zero and the scaled region is the whole buffer), choosing the
source pixel by independent nearest-neighbour index computation
`src = (dst * frame_extent) / buffer_extent`, and every written pixel
carries top byte 0xFF followed by the source red, green and blue bytes. -/
theorem C6_scaled_render_fills (buf : Nat → Nat) (buffer_width buffer_height : Int)
    (frame : VideoFrame)
    (hbw : 0 < buffer_width) (hbh : 0 < buffer_height)
    (hrgb : frame.is_rgb = true) (hfw : 0 < frame.width) (hfh : 0 < frame.height)
    (hsize : frame.data.length = (frame.width * frame.height * 3).toNat)
    (hbytes : ∀ c ∈ frame.data, c < 256)
    (hne : ¬ (frame.width = buffer_width ∧ frame.height = buffer_height)) :
    ∀ x y : Nat, x < buffer_width.toNat → y < buffer_height.toNat →
      renderVideoToBuffer buf buffer_width buffer_height frame
          (y * buffer_width.toNat + x) =
        packPixel
          (frameByte frame (scaledSourceIndex frame buffer_width buffer_height x y))
          (frameByte frame (scaledSourceIndex frame buffer_width buffer_height x y + 1))
          (frameByte frame (scaledSourceIndex frame buffer_width buffer_height x y + 2)) ∧
      renderVideoToBuffer buf buffer_width buffer_height frame
          (y * buffer_width.toNat + x) / 2 ^ 24 % 256 = 0xFF ∧
      renderVideoToBuffer buf buffer_width buffer_height frame
          (y * buffer_width.toNat + x) / 2 ^ 16 % 256 =
        frameByte frame (scaledSourceIndex frame buffer_width buffer_height x y) ∧
      renderVideoToBuffer buf buffer_width buffer_height frame
          (y * buffer_width.toNat + x) / 2 ^ 8 % 256 =
        frameByte frame (scaledSourceIndex frame buffer_width buffer_height x y + 1) ∧
      renderVideoToBuffer buf buffer_width buffer_height frame
          (y * buffer_width.toNat + x) % 256 =
        frameByte frame (scaledSourceIndex frame buffer_width buffer_height x y + 2) := by
  intro x y hxlt hylt
  have hdata_ne : frame.data ≠ [] := by
    intro hnil
    rw [hnil] at hsize
    simp only [List.length_nil] at hsize
    have : (0 : Int) < frame.width * frame.height * 3 := by positivity
    omega
  have hmain : renderVideoToBuffer buf buffer_width buffer_height frame
      (y * buffer_width.toNat + x) =
      packPixel
        (frameByte frame (scaledSourceIndex frame buffer_width buffer_height x y))
        (frameByte frame (scaledSourceIndex frame buffer_width buffer_height x y + 1))
        (frameByte frame (scaledSourceIndex frame buffer_width buffer_height x y + 2)) := by
    unfold renderVideoToBuffer
    rw [if_neg (by push_neg; exact ⟨by omega, by omega, by simp [hrgb], hdata_ne,
      by omega, by omega⟩)]
    rw [if_neg (by push_neg; exact hsize)]
    rw [if_neg hne]
    unfold scaledSourceIndex
    exact renderScaledLoop_get frame buffer_width.toNat buffer_height.toNat _
      buffer_height.toNat x y hylt (le_refl _) hxlt (by omega) (by omega) (by omega)
      (by omega)
  refine ⟨hmain, ?_, ?_, ?_, ?_⟩ <;>
    rw [hmain, packPixel_eq _ _ _ (frameByte_lt frame hbytes _) (frameByte_lt frame hbytes _)
      (frameByte_lt frame hbytes _)] <;>
    have h1 := frameByte_lt frame hbytes (scaledSourceIndex frame buffer_width buffer_height x y) <;>
    have h2 := frameByte_lt frame hbytes (scaledSourceIndex frame buffer_width buffer_height x y + 1) <;>
    have h3 := frameByte_lt frame hbytes (scaledSourceIndex frame buffer_width buffer_height x y + 2) <;>
    omega

/-- Witness for `C6_scaled_render_fills`: a 1×1 frame with bytes
(10, 20, 30) stretched onto a 2×2 buffer, checked at destination pixel
(1, 1). -/
theorem C6_witness :
    renderVideoToBuffer (fun _ => 7) 2 2 ⟨[10, 20, 30], 1, 1, true⟩
        (1 * (2 : Int).toNat + 1) =
      packPixel
        (frameByte ⟨[10, 20, 30], 1, 1, true⟩ (scaledSourceIndex ⟨[10, 20, 30], 1, 1, true⟩ 2 2 1 1))
        (frameByte ⟨[10, 20, 30], 1, 1, true⟩ (scaledSourceIndex ⟨[10, 20, 30], 1, 1, true⟩ 2 2 1 1 + 1))
        (frameByte ⟨[10, 20, 30], 1, 1, true⟩ (scaledSourceIndex ⟨[10, 20, 30], 1, 1, true⟩ 2 2 1 1 + 2)) ∧
      renderVideoToBuffer (fun _ => 7) 2 2 ⟨[10, 20, 30], 1, 1, true⟩
        (1 * (2 : Int).toNat + 1) / 2 ^ 24 % 256 = 0xFF :=
  ⟨(C6_scaled_render_fills (fun _ => 7) 2 2 ⟨[10, 20, 30], 1, 1, true⟩
      (by decide) (by decide) rfl (by decide) (by decide) (by decide)
      (by decide) (by decide) 1 1 (by decide) (by decide)).1,
   ((C6_scaled_render_fills (fun _ => 7) 2 2 ⟨[10, 20, 30], 1, 1, true⟩
      (by decide) (by decide) rfl (by decide) (by decide) (by decide)
      (by decide) (by decide) 1 1 (by decide) (by decide)).2).1⟩

end Openterface
